import Mathlib

/-!
Verification of the validation engine of the antivenom_database repository
(`antivenom_validation/validate/*`): the severity / result data model
(`models.py`), the manifest configuration model (`manifest.py`), the runner
orchestration (`runner.py`) and the checks the claims cite
(`checks/base.py`, `checks/schema.py`, `checks/constraints.py`).

Shallow-embedding conventions:
* pandas cell values are strings or missing (`Cell.na` plays the role of
  `NaN`/`None`; the Python code applies `str(...)` before inspecting values);
* a DataFrame is its column list, its rows (association lists from column
  name to cell, with the default positional `RangeIndex`) and its dtype
  table (`str(df[col].dtype)` is looked up there);
* Python floats used for rates/thresholds are modelled as `Rat`;
* `re.match` and the `f"{x:.1%}"` percent formatter are external library
  calls and appear as explicit function parameters (`reMatch`, `fmtPct`);
* exceptions are modelled with `Except PyExc`; wall-clock timing is not
  modelled (durations stay at their dataclass default `0.0`).
-/

/-- `models.Severity`: the four severity levels (declaration order
`BLOCKER, MAJOR, MINOR, INFO`, which is the enum's iteration order). -/
inductive Severity where
  | BLOCKER
  | MAJOR
  | MINOR
  | INFO
deriving DecidableEq, BEq, Repr, Fintype

/-- `Severity.value`: each member's string value. -/
def Severity.value : Severity → String
  | .BLOCKER => "BLOCKER"
  | .MAJOR => "MAJOR"
  | .MINOR => "MINOR"
  | .INFO => "INFO"

/-- Enum iteration order of `Severity` (class-body declaration order),
used by `ValidationReport.count_by_severity` to initialise its counters. -/
def severityEnumOrder : List Severity := [.BLOCKER, .MAJOR, .MINOR, .INFO]

/-- The `order` list inside `Severity.__lt__` (models.py line 19). -/
def severityLtOrder : List Severity := [.INFO, .MINOR, .MAJOR, .BLOCKER]

/-- `Severity.__lt__`: `order.index(self) < order.index(other)`. -/
def Severity.pylt (a b : Severity) : Bool :=
  severityLtOrder.indexOf a < severityLtOrder.indexOf b

/-- `Severity[name]` lookup: `some` exactly on the four member names
(`Severity.__members__`), `none` models the `KeyError` case. -/
def Severity.ofName? : String → Option Severity
  | "BLOCKER" => some .BLOCKER
  | "MAJOR" => some .MAJOR
  | "MINOR" => some .MINOR
  | "INFO" => some .INFO
  | _ => none

/-- A JSON-like Python value, for `details` payloads and the runner's raw
error dicts. -/
inductive PyVal where
  | str (s : String)
  | nat (n : Nat)
  | rat (q : Rat)
  | list (l : List PyVal)
  | dict (entries : List (String × PyVal))
  | none

/-- Python `str(...)` on the values that reach it in the aggregation code
(only strings occur there; the other branches are a best-effort rendering). -/
def pyStr : PyVal → String
  | .str s => s
  | .nat n => toString n
  | .rat q => toString q
  | .list _ => "list"
  | .dict _ => "dict"
  | .none => "None"

/-- `dict.get(key, default)` on a Python dict of `PyVal`s. -/
def pyDictGet (d : List (String × PyVal)) (key : String) (dflt : PyVal) : PyVal :=
  match d.find? (fun p => p.1 == key) with
  | some p => p.2
  | Option.none => dflt

/-- Exception information carried by a raised Python exception:
`type(e).__name__`, `str(e)` and the formatted traceback. -/
structure PyExc where
  typeName : String
  message : String := ""
  traceback : String := ""
deriving DecidableEq

/-- `models.ValidationError`: a single finding. `severity` is a `Severity`
member; the optional diagnostic fields default to `None`. -/
structure ValidationError where
  severity : Severity
  category : String
  message : String
  row_indices : Option (List Nat) := Option.none
  column : Option String := Option.none
  expected : Option PyVal := Option.none
  actual : Option PyVal := Option.none
  details : Option (List (String × PyVal)) := Option.none

/-- An entry of a result bucket. The checks put `ValidationError` objects
there; the runner's fault handler (runner.py lines 47-62) appends a plain
dict, so a bucket entry is either shape. -/
inductive Finding where
  | err (e : ValidationError)
  | dict (entries : List (String × PyVal))

/-- `models.ValidationResult`: one check's result. -/
structure ValidationResult where
  category : String
  passed : Bool
  errors : List Finding := []
  warnings : List Finding := []
  info : List Finding := []
  duration_seconds : Rat := 0

/-- The common tail of every check's `run` method (schema.py 88-96,
parsing.py 69-77, constraints.py 70-78, vocab.py 46-54, coherence.py 47-55,
geospatial.py 79-87, uniqueness.py 50-58, reproducibility.py 112-120,
perf.py 54-62): `passed = len(errors) == 0` followed by
`ValidationResult(category=..., passed=passed, errors=..., warnings=...,
info=...)`. -/
def mkCheckResult (category : String) (errors warnings info : List Finding) :
    ValidationResult :=
  { category := category
    passed := errors.length == 0
    errors := errors
    warnings := warnings
    info := info }

/-- The early-return result of `GeospatialCheck.run` when no coordinate
columns are found (geospatial.py lines 41-51): `passed=True`, empty
`errors`/`warnings`, one INFO finding. -/
def geospatialNoCoordsResult : ValidationResult :=
  { category := "geospatial"
    passed := true
    errors := []
    warnings := []
    info := [Finding.err
      { severity := .INFO
        category := "geospatial"
        message := "Colunas de coordenadas não encontradas" }] }

/-- `models.ValidationReport` (timestamp and `data_quality` carry no engine
logic and are omitted; `manifest_path` keeps its dataclass default). -/
structure ValidationReport where
  manifest_path : String := ""
  data_file : String := ""
  row_count : Nat := 0
  column_count : Nat := 0
  results : List ValidationResult := []
  duration_seconds : Rat := 0

/-- `ValidationReport.passed`: `all(r.passed for r in self.results)`. -/
def ValidationReport.passed (rep : ValidationReport) : Bool :=
  rep.results.all (fun r => r.passed)

/-- Lookup in a Python-dict-as-association-list, with a default for the
absent-key case. -/
def lookupD (d : List (String × Nat)) (k : String) (dflt : Nat) : Nat :=
  match d with
  | [] => dflt
  | (k0, v0) :: rest => if k0 == k then v0 else lookupD rest k dflt

/-- `counts[k] = v`: update the first occurrence of `k`, else append. -/
def dictSet (d : List (String × Nat)) (k : String) (v : Nat) :
    List (String × Nat) :=
  match d with
  | [] => [(k, v)]
  | (k0, v0) :: rest =>
    if k0 == k then (k0, v) :: rest else (k0, v0) :: dictSet rest k v

/-- The severity key under which `count_by_severity` files one finding:
a `ValidationError` has a `severity` attribute with a `.value`
(`counts[severity.value] += 1`); a plain dict has neither, so the code takes
`error.get('severity', 'UNKNOWN')` and then `counts[str(severity)] =
counts.get(str(severity), 0) + 1` (models.py lines 125-142). -/
def resolveSevKey : Finding → String
  | .err e => e.severity.value
  | .dict d => pyStr (pyDictGet d "severity" (.str "UNKNOWN"))

/-- One counter update of `count_by_severity` (both shapes increment the
resolved key; for enum-carrying findings the key is always among the four
initialised keys, so `counts[k] += 1` and `counts[k] = counts.get(k,0)+1`
coincide). -/
def bumpFinding (counts : List (String × Nat)) (f : Finding) :
    List (String × Nat) :=
  dictSet counts (resolveSevKey f) (lookupD counts (resolveSevKey f) 0 + 1)

/-- `count_by_severity`'s three per-result loops over `errors`, `warnings`
and `info`, in that order. -/
def countResult (counts : List (String × Nat)) (r : ValidationResult) :
    List (String × Nat) :=
  r.info.foldl bumpFinding (r.warnings.foldl bumpFinding
    (r.errors.foldl bumpFinding counts))

/-- `counts = {s.value: 0 for s in Severity}`. -/
def initCounts : List (String × Nat) :=
  severityEnumOrder.map (fun s => (s.value, 0))

/-- `ValidationReport.count_by_severity` (models.py lines 122-143). -/
def ValidationReport.count_by_severity (rep : ValidationReport) :
    List (String × Nat) :=
  rep.results.foldl countResult initCounts

/-- `ValidationReport.has_blockers`: `count_by_severity()["BLOCKER"] > 0`
(the BLOCKER key is always present from the initialisation). -/
def ValidationReport.has_blockers (rep : ValidationReport) : Bool :=
  decide (0 < lookupD rep.count_by_severity "BLOCKER" 0)

/-! ## Dataset model -/

/-- One pandas cell: missing (`NaN`/`None`, i.e. `pd.isna` is true) or a
value, kept in its `str(...)` rendering since that is how the checks under
verification inspect it. -/
inductive Cell where
  | na
  | val (s : String)
deriving DecidableEq

/-- `str(...)` of a cell (`str(float('nan')) = 'nan'`). -/
def cellStr : Cell → String
  | .na => "nan"
  | .val s => s

/-- A pandas DataFrame: named columns, rows as association lists from
column name to cell (index = the default positional `RangeIndex`), and the
dtype table consulted by `str(df[col].dtype)`. -/
structure DataFrame where
  columns : List String
  rows : List (List (String × Cell)) := []
  dtypes : List (String × String) := []

/-- Cell of one row in a given column (missing entry behaves as `NaN`). -/
def rowGet (row : List (String × Cell)) (col : String) : Cell :=
  match row.find? (fun p => p.1 == col) with
  | some p => p.2
  | Option.none => Cell.na

/-- `df[col].items()`: the `(index, value)` pairs of one column. -/
def DataFrame.colItems (df : DataFrame) (col : String) : List (Nat × Cell) :=
  df.rows.enum.map (fun p => (p.1, rowGet p.2 col))

/-- `df.loc[i, col]` under the default positional index. -/
def DataFrame.loc (df : DataFrame) (i : Nat) (col : String) : Cell :=
  match df.rows.get? i with
  | some row => rowGet row col
  | Option.none => Cell.na

/-- `str(df[col].dtype)`; the dtype table carries what pandas would infer. -/
def DataFrame.dtypeOf (df : DataFrame) (col : String) : String :=
  match df.dtypes.find? (fun p => p.1 == col) with
  | some p => p.2
  | Option.none => "object"

/-! ## Configuration model (`manifest.py`) -/

/-- `manifest.ColumnConfig`. -/
structure ColumnConfig where
  name : String
  required : Bool := true
  type : String := "string"
  aliases : List String := []

/-- `manifest.ConstraintConfig` (numeric lengths unused by the claims but
kept for shape fidelity). -/
structure ConstraintConfig where
  type : String := "string"
  pattern : Option String := Option.none
  min_length : Option Nat := Option.none
  max_length : Option Nat := Option.none
  strip_chars : Option String := Option.none
  allow_empty : Bool := false
  allow_special_values : List String := []
  severity : String := "MAJOR"

/-- `manifest.VocabConfig`. -/
structure VocabConfig where
  values : List String := []
  case_sensitive : Bool := true
  allow_null : Bool := false
  severity : String := "MAJOR"

/-- `manifest.GeoConfig` (bounds as rationals). -/
structure GeoConfig where
  lat_field : String := "Lat"
  lon_field : String := "Lon"
  lat_min : Rat := -90
  lat_max : Rat := 90
  lon_min : Rat := -180
  lon_max : Rat := 180
  brazil_lat_min : Rat := -55
  brazil_lat_max : Rat := 10
  brazil_lon_min : Rat := -80
  brazil_lon_max : Rat := -30
  check_duplicates : Bool := true
  id_column : String := "CNES"

/-- `manifest.CrossFieldConfig`. -/
structure CrossFieldConfig where
  description : String
  field_a : String
  field_b : String
  mapping_file : Option String := Option.none
  rule : Option String := Option.none
  tolerance : Int := 0
  severity : String := "MAJOR"

/-- A raw per-field missingness dict (`missingness: dict[str, dict]`),
read with `miss_config.get('max_null_rate', 1.0)` and
`miss_config.get('severity', 'INFO')`. -/
structure MissSpec where
  max_null_rate : Option Rat := Option.none
  severity : Option String := Option.none

/-- `manifest.ManifestConfig`. Note: in the source, `input_file: str` is
the only field WITHOUT a dataclass default (manifest.py line 74); the Lean
structure needs a well-typed default to exist at all, and the zero-argument
construction semantics of the Python dataclass is modelled separately by
`callManifestConfigNoArgs`. -/
structure ManifestConfig where
  input_file : String
  source_type : String := "excel"
  sheet_name : Option String := Option.none
  columns : List ColumnConfig := []
  constraints : List (String × ConstraintConfig) := []
  controlled_vocab : List (String × VocabConfig) := []
  geospatial : Option GeoConfig := Option.none
  cross_field : List (String × CrossFieldConfig) := []
  uniqueness_columns : List String := []
  missingness : List (String × MissSpec) := []
  reports_dir : String := "reports"
  fu_to_state : List (String × List String) := []
  fu_to_region : List (String × List String) := []

/-- `config.constraints.get(name)`. -/
def lookupConstraint (cs : List (String × ConstraintConfig)) (name : String) :
    Option ConstraintConfig :=
  match cs.find? (fun p => p.1 == name) with
  | some p => some p.2
  | Option.none => Option.none

/-- `missingness_config.get(col, {})`. -/
def lookupMiss (ms : List (String × MissSpec)) (col : String) : MissSpec :=
  match ms.find? (fun p => p.1 == col) with
  | some p => p.2
  | Option.none => {}

/-! ## Dataclass construction semantics (for `ManifestConfig()`) -/

/-- One field of a dataclass declaration: its name and whether the
declaration supplies a default. -/
structure FieldSpec where
  fieldName : String
  hasDefault : Bool

/-- The fields of `ManifestConfig` in declaration order (manifest.py lines
74-88): `input_file` is declared `input_file: str` with no default, every
other field has a default or a `field(default_factory=...)`. -/
def manifestConfigFields : List FieldSpec :=
  [⟨"input_file", false⟩, ⟨"source_type", true⟩, ⟨"sheet_name", true⟩,
   ⟨"columns", true⟩, ⟨"constraints", true⟩, ⟨"controlled_vocab", true⟩,
   ⟨"geospatial", true⟩, ⟨"cross_field", true⟩, ⟨"uniqueness_columns", true⟩,
   ⟨"missingness", true⟩, ⟨"reports_dir", true⟩, ⟨"fu_to_state", true⟩,
   ⟨"fu_to_region", true⟩]

/-- CPython dataclass `__init__` semantics: the fields that lack a default
and were not passed by the caller.  A non-empty result means the generated
`__init__` raises `TypeError` before the body runs. -/
def dataclassMissing (fields : List FieldSpec) (provided : List String) :
    List String :=
  (fields.filter (fun f => !f.hasDefault && !provided.contains f.fieldName)).map
    (fun f => f.fieldName)

/-- The call `ManifestConfig()` with no arguments, as performed by
`ValidationRunner.__init__` (`config or ManifestConfig()`, runner.py line
25) and by `run_validation` (runner.py line 97). -/
def callManifestConfigNoArgs : Except PyExc ManifestConfig :=
  if (dataclassMissing manifestConfigFields []).isEmpty then
    -- would-be all-defaults instance (unreachable branch in CPython)
    Except.ok { input_file := "" }
  else
    Except.error
      { typeName := "TypeError"
        message :=
          "ManifestConfig.__init__() missing 1 required positional argument: \x27input_file\x27" }

/-! ## Runner (`runner.py`) -/

/-- Outcome of `check.timed_run(df, config)`: a normal result or a raised
exception. -/
inductive ExecOutcome where
  | ok (r : ValidationResult)
  | exn (e : PyExc)

/-- A registered, instantiated check, abstracted to what the runner uses:
its `name` and its `timed_run`.  Since a Python check receives the shared
mutable DataFrame object, its execution also yields the dataset state it
leaves behind (identical to its input for the well-behaved, read-only
checks). -/
structure Check where
  name : String
  timedRun : DataFrame → ManifestConfig → ExecOutcome × DataFrame

/-- The synthetic failure result the runner appends when a check raises
(runner.py lines 43-62): `passed=False`, a single raw-dict error finding
with severity string `"BLOCKER"`, the message built from `str(e)`, and the
exception type name plus traceback in the details payload; `warnings` and
`info` empty. -/
def faultResult (checkName : String) (e : PyExc) : ValidationResult :=
  { category := checkName
    passed := false
    errors := [Finding.dict
      [("severity", PyVal.str Severity.BLOCKER.value),
       ("message", PyVal.str ("Erro na execução do check: " ++ e.message)),
       ("details", PyVal.dict
         [("exception", PyVal.str e.typeName),
          ("traceback", PyVal.str e.traceback)])]]
    warnings := []
    info := [] }

/-- The runner's main loop (runner.py lines 34-62): skip by name, otherwise
execute and append either the returned result or the synthetic fault
result, threading the shared dataset object. -/
def runChecks (cfg : ManifestConfig) (skip : List String) :
    List Check → DataFrame → List ValidationResult × DataFrame
  | [], df => ([], df)
  | c :: rest, df =>
    if skip.contains c.name then runChecks cfg skip rest df
    else
      match c.timedRun df cfg with
      | (.ok r, dfNext) =>
        let (rs, dfEnd) := runChecks cfg skip rest dfNext
        (r :: rs, dfEnd)
      | (.exn e, dfNext) =>
        let (rs, dfEnd) := runChecks cfg skip rest dfNext
        (faultResult c.name e :: rs, dfEnd)

/-- `runner.ValidationRunner` after construction. -/
structure ValidationRunner where
  config : ManifestConfig
  checks : List Check
  skip_checks : List String

/-- `ValidationRunner.run` (runner.py lines 29-76).  `len(df)` and
`len(df.columns)` are evaluated when the report is assembled, i.e. on the
dataset object as the checks left it.  The local
`passed = all(r.passed for r in results)` of line 67 is never stored in the
report (`ValidationReport` derives `passed` as a property). -/
def ValidationRunner.run (runner : ValidationRunner) (df : DataFrame) :
    ValidationReport :=
  let out := runChecks runner.config runner.skip_checks runner.checks df
  { data_file :=
      if runner.config.input_file == "" then "unknown"
      else runner.config.input_file
    row_count := out.2.rows.length
    column_count := out.2.columns.length
    results := out.1
    duration_seconds := 0 }

/-- `ValidationRunner(config=None, checks=..., skip_checks=...)`:
`self.config = config or ManifestConfig()` with `config = None` evaluates
`ManifestConfig()` (runner.py lines 19-27). -/
def runnerInitNoConfig (checks : List Check) (skip : List String) :
    Except PyExc ValidationRunner :=
  match callManifestConfigNoArgs with
  | .error e => .error e
  | .ok cfg => .ok { config := cfg, checks := checks, skip_checks := skip }

/-! ## Python string primitives (structural embeddings)

Core `String.replace`/`String.trim` and the `String` order are defined by
well-founded recursion or marked irreducible and so cannot be evaluated by
the kernel; the embeddings below restate the exact Python semantics
structurally over the character list. -/

/-- Python `s.strip(chars)`: remove leading and trailing characters drawn
from `chars`. -/
def pyStripChars (s : String) (chars : String) : String :=
  let isStrip := fun c => chars.toList.contains c
  String.mk (((s.toList.dropWhile isStrip).reverse.dropWhile isStrip).reverse)

/-- Python `s.strip()` with no arguments: strip ASCII whitespace
(the full Python set for the characters occurring in this dataset model). -/
def pyStrip (s : String) : String :=
  pyStripChars s " \t\n\r\x0b\x0c"

/-- Python `s.replace(c, '')` for a single-character pattern: drop every
occurrence of that character. -/
def pyRemoveChar (s : String) (c : Char) : String :=
  String.mk (s.toList.filter (fun a => a != c))

/-- Code-point lexicographic order on strings (Python `sorted` on `str`). -/
def charListLe : List Char → List Char → Bool
  | [], _ => true
  | _ :: _, [] => false
  | a :: as, b :: bs =>
    if a.val < b.val then true
    else if b.val < a.val then false
    else charListLe as bs

def pyStrLe (a b : String) : Bool := charListLe a.toList b.toList

/-! ## Schema check (`checks/schema.py`) -/

/-- Python `repr`-style rendering of a list of strings, as interpolated by
`f"... {sorted(unexpected)}"`. -/
def pyReprStrList (l : List String) : String :=
  "[" ++ String.intercalate ", " (l.map (fun s => "\x27" ++ s ++ "\x27")) ++ "]"

/-- The per-expected-column loop of `SchemaCheck.run` (schema.py lines
33-68): direct presence, first matching alias otherwise, then a BLOCKER
error for a missing required column, an INFO note for a missing optional
column, or an INFO note when found through an alias.  Returns the
accumulated `(errors, info)` in loop order. -/
def schemaColFindings (dfCols : List String) :
    List ColumnConfig → List ValidationError × List ValidationError
  | [] => ([], [])
  | cc :: rest =>
    let out := schemaColFindings dfCols rest
    let foundDirect := dfCols.contains cc.name
    let foundAlias :=
      if foundDirect then Option.none
      else cc.aliases.find? (fun a => dfCols.contains a)
    let found := foundDirect || foundAlias.isSome
    if !found && cc.required then
      ({ severity := .BLOCKER
         category := "schema"
         message := "Coluna obrigatória \x27" ++ cc.name ++ "\x27 não encontrada"
         column := some cc.name
         expected := some (.str cc.name)
         actual := Option.none
         details := some [("aliases_checked", .list (cc.aliases.map PyVal.str))] }
        :: out.1, out.2)
    else if !found && !cc.required then
      (out.1,
       { severity := .INFO
         category := "schema"
         message := "Coluna opcional \x27" ++ cc.name ++ "\x27 não encontrada"
         column := some cc.name } :: out.2)
    else
      match foundAlias with
      | some aliasName =>
        (out.1,
         { severity := .INFO
           category := "schema"
           message := "Coluna \x27" ++ cc.name ++ "\x27 encontrada via alias \x27"
             ++ aliasName ++ "\x27"
           column := some cc.name
           details := some [("alias_used", .str aliasName)] } :: out.2)
      | Option.none => out

/-- `expected_names`: all configured column names plus all their aliases
(schema.py lines 71-74; built as a set, used only for membership and set
difference). -/
def expectedNames (cols : List ColumnConfig) : List String :=
  cols.foldl (fun acc cc => acc ++ [cc.name] ++ cc.aliases) []

/-- `sorted(df_columns - expected_names)` (schema.py lines 76-80): the
distinct dataset columns not declared anywhere, in sorted order. -/
def unexpectedColumns (df : DataFrame) (cols : List ColumnConfig) :
    List String :=
  List.insertionSort (fun a b : String => pyStrLe a b = true)
    (df.columns.dedup.filter (fun c => !(expectedNames cols).contains c))

/-- The `type_mapping` table of `SchemaCheck._check_column_types`. -/
def typeMapping : List (String × List String) :=
  [("string", ["object", "string"]),
   ("float", ["float64", "float32", "float"]),
   ("int", ["int64", "int32", "int"]),
   ("bool", ["bool"])]

/-- `type_mapping.get(t, [t])`. -/
def lookupTypes (t : String) : List String :=
  match typeMapping.find? (fun p => p.1 == t) with
  | some p => p.2
  | Option.none => [t]

/-- `SchemaCheck._check_column_types` (schema.py lines 98-125): a MINOR
finding for each configured column present in the dataset whose dtype is
outside the accepted list. -/
def checkColumnTypes (df : DataFrame) (cols : List ColumnConfig) :
    List ValidationError :=
  cols.foldl
    (fun acc cc =>
      if !df.columns.contains cc.name then acc
      else
        let actualType := df.dtypeOf cc.name
        if (lookupTypes cc.type).contains actualType then acc
        else acc ++
          [{ severity := .MINOR
             category := "schema"
             message := "Tipo de \x27" ++ cc.name ++ "\x27 é \x27" ++ actualType
               ++ "\x27, esperado \x27" ++ cc.type ++ "\x27"
             column := some cc.name
             expected := some (.str cc.type)
             actual := some (.str actualType) }])
    []

/-- `SchemaCheck.run` (schema.py lines 24-96). -/
def SchemaCheck.run (df : DataFrame) (config : ManifestConfig) :
    ValidationResult :=
  let colOut := schemaColFindings df.columns config.columns
  let unexpected := unexpectedColumns df config.columns
  let infos :=
    colOut.2 ++
      (if unexpected.isEmpty then []
       else
        [{ severity := .INFO
           category := "schema"
           message := "Colunas não documentadas encontradas: "
             ++ pyReprStrList unexpected
           details := some [("unexpected_columns", .list (unexpected.map .str))] }])
  let warns := checkColumnTypes df config.columns
  mkCheckResult "schema" (colOut.1.map Finding.err) (warns.map Finding.err)
    (infos.map Finding.err)

/-! ## Constraints check (`checks/constraints.py`)

`re.match` is an external library call; every definition below takes the
matcher as the explicit parameter `reMatch : pattern → string → matched?`.
The `f"{x:.1%}"` percent formatter likewise appears as `fmtPct`. -/

/-- `clean_cnes` (constraints.py lines 281-286): `value.replace(char, '')`
for each char of `strip_chars`, then `.strip()` (Python default-whitespace
strip, rendered with `String.trim`). -/
def cleanCnes (value : String) (stripChars : String := "\t \n") : String :=
  pyStrip (stripChars.toList.foldl (fun acc c => pyRemoveChar acc c) value)

/-- The three per-check finding buckets a `_validate_*` helper returns. -/
structure Buckets where
  errors : List ValidationError := []
  warnings : List ValidationError := []
  info : List ValidationError := []

/-- Bucket-wise concatenation (the `extend` calls of the caller). -/
def appendBuckets (a b : Buckets) : Buckets :=
  { errors := a.errors ++ b.errors
    warnings := a.warnings ++ b.warnings
    info := a.info ++ b.info }

/-- The scanning loop of `_validate_cnes` (constraints.py lines 104-121):
`(invalid_indices, special_value_indices)` in index order. -/
def cnesScan (reMatch : String → String → Bool) (pattern stripChars : String)
    (specialValues : List String) :
    List (Nat × Cell) → List Nat × List Nat
  | [] => ([], [])
  | (idx, cell) :: rest =>
    let out := cnesScan reMatch pattern stripChars specialValues rest
    match cell with
    | .na => out
    | .val s =>
      let cleaned := cleanCnes s stripChars
      if specialValues.contains s || specialValues.contains cleaned then
        (out.1, idx :: out.2)
      else if !reMatch pattern cleaned then (idx :: out.1, out.2)
      else out

/-- The hardcoded CNES special-value list (constraints.py line 94):
`hasattr(cnes_config, 'special_values')` is always False — the dataclass
field is named `allow_special_values` — so this default is always used. -/
def cnesSpecialValues : List String := ["Not informed", "Not informed1-4"]

/-- The resolved `strip_chars` of `_validate_cnes` (constraints.py lines
96-98): the configured value only when truthy, else the default. -/
def cnesStripChars (config : ManifestConfig) : String :=
  match lookupConstraint config.constraints "CNES" with
  | some c =>
    match c.strip_chars with
    | some sc => if sc == "" then "\t \n" else sc
    | Option.none => "\t \n"
  | Option.none => "\t \n"

/-- The resolved pattern of `_validate_cnes` (constraints.py lines
100-102): the configured value only when truthy, else `^\d{6,8}$`. -/
def cnesPattern (config : ManifestConfig) : String :=
  match lookupConstraint config.constraints "CNES" with
  | some c =>
    match c.pattern with
    | some p => if p == "" then "^\\d\x7b6,8\x7d$" else p
    | Option.none => "^\\d\x7b6,8\x7d$"
  | Option.none => "^\\d\x7b6,8\x7d$"

/-- The `invalid_indices` collected by `_validate_cnes`'s loop. -/
def cnesInvalid (reMatch : String → String → Bool) (df : DataFrame)
    (config : ManifestConfig) : List Nat :=
  (cnesScan reMatch (cnesPattern config) (cnesStripChars config)
    cnesSpecialValues (df.colItems "CNES")).1

/-- The `special_value_indices` collected by `_validate_cnes`'s loop. -/
def cnesSpecial (reMatch : String → String → Bool) (df : DataFrame)
    (config : ManifestConfig) : List Nat :=
  (cnesScan reMatch (cnesPattern config) (cnesStripChars config)
    cnesSpecialValues (df.colItems "CNES")).2

/-- The severity string of the CNES constraint, default `'MAJOR'`
(constraints.py line 124). -/
def cnesSevStr (config : ManifestConfig) : String :=
  match lookupConstraint config.constraints "CNES" with
  | some c => c.severity
  | Option.none => "MAJOR"

/-- `ConstraintsCheck._validate_cnes` (constraints.py lines 80-152).
An unrecognised severity string falls back to `Severity.MAJOR`;
BLOCKER/MAJOR findings go to `errors`, anything else to `warnings`. -/
def validateCnes (reMatch : String → String → Bool) (df : DataFrame)
    (config : ManifestConfig) : Buckets :=
  let invalid := cnesInvalid reMatch df config
  let special := cnesSpecial reMatch df config
  let errBucket : Buckets :=
    if invalid.isEmpty then {}
    else
      let severity := (Severity.ofName? (cnesSevStr config)).getD Severity.MAJOR
      let e : ValidationError :=
        { severity := severity
          category := "constraints"
          message := "CNES com formato inválido ("
            ++ toString invalid.length ++ " registros)"
          column := some "CNES"
          row_indices := some (invalid.take 50)
          details := some
            [("pattern", .str (cnesPattern config)),
             ("sample_invalid",
              .list ((invalid.take 5).map (fun i => .str (cellStr (df.loc i "CNES")))))] }
      if [Severity.BLOCKER, Severity.MAJOR].contains severity then
        { errors := [e] }
      else { warnings := [e] }
  let infoBucket : Buckets :=
    if special.isEmpty then {}
    else
      { info := [{ severity := .INFO
                   category := "constraints"
                   message := "CNES com valores especiais permitidos ("
                     ++ toString special.length ++ " registros)"
                   column := some "CNES"
                   row_indices := some (special.take 20) }] }
  appendBuckets errBucket infoBucket

/-- The scanning loop of `_validate_telefone` (constraints.py lines
165-181): `(invalid_indices, empty_indices)`.  A `None` pattern makes
`re.match(None, ...)` raise `TypeError` at the first value that reaches
it. -/
def telScan (reMatch : String → String → Bool) (specialValues : List String)
    (pattern : Option String) :
    List (Nat × Cell) → Except PyExc (List Nat × List Nat)
  | [] => .ok ([], [])
  | (idx, cell) :: rest =>
    match cell with
    | .na =>
      (telScan reMatch specialValues pattern rest).map
        (fun out => (out.1, idx :: out.2))
    | .val s =>
      if pyStrip s == "" then
        (telScan reMatch specialValues pattern rest).map
          (fun out => (out.1, idx :: out.2))
      else
        let valStr := pyStrip s
        if specialValues.contains valStr then
          telScan reMatch specialValues pattern rest
        else
          match pattern with
          | Option.none =>
            .error { typeName := "TypeError"
                     message := "first argument must be string or compiled pattern" }
          | some p =>
            (telScan reMatch specialValues pattern rest).map
              (fun out =>
                (if !reMatch p valStr then idx :: out.1 else out.1, out.2))

/-- `ConstraintsCheck._validate_telefone` (constraints.py lines 154-206).
When a `Telefone` constraint exists, its `allow_special_values` and
`pattern` are used as-is (a configured `pattern: None` therefore reaches
`re.match` unguarded); otherwise the hardcoded defaults apply. -/
def validateTelefone (reMatch : String → String → Bool) (df : DataFrame)
    (config : ManifestConfig) : Except PyExc Buckets :=
  let telConfig := lookupConstraint config.constraints "Telefone"
  let specialValues :=
    match telConfig with
    | some c => c.allow_special_values
    | Option.none => ["Sem contato"]
  let pattern : Option String :=
    match telConfig with
    | some c => c.pattern
    | Option.none => some "^[\\d\\s\\-\\(\\)\\/\\+]+$"
  match telScan reMatch specialValues pattern (df.colItems "Telefone") with
  | .error e => .error e
  | .ok scanned =>
    let invalid := scanned.1
    let empty := scanned.2
    let warnBucket : Buckets :=
      if invalid.isEmpty then {}
      else
        { warnings := [{ severity := .MINOR
                         category := "constraints"
                         message := "Telefones com formato inválido ("
                           ++ toString invalid.length ++ " registros)"
                         column := some "Telefone"
                         row_indices := some (invalid.take 30)
                         details := some
                           [("sample_invalid",
                             .list ((invalid.take 5).map
                               (fun i => .str (cellStr (df.loc i "Telefone")))))] }] }
    let infoBucket : Buckets :=
      if empty.isEmpty then {}
      else
        { info := [{ severity := .INFO
                     category := "constraints"
                     message := "Telefones vazios/nulos ("
                       ++ toString empty.length ++ " registros)"
                     column := some "Telefone"
                     row_indices := some (empty.take 20) }] }
    .ok (appendBuckets warnBucket infoBucket)

/-- The scanning loop of `_validate_pattern` (constraints.py lines
211-224): a missing value counts as invalid unless `allow_empty`; a present
value is stripped when `strip_chars` is truthy and then matched. -/
def patScan (reMatch : String → String → Bool) (pattern : Option String)
    (stripChars : Option String) (allowEmpty : Bool) :
    List (Nat × Cell) → Except PyExc (List Nat)
  | [] => .ok []
  | (idx, cell) :: rest =>
    match cell with
    | .na =>
      (patScan reMatch pattern stripChars allowEmpty rest).map
        (fun l => if allowEmpty then l else idx :: l)
    | .val s =>
      let valStr :=
        match stripChars with
        | some sc => if sc == "" then s else pyStripChars s sc
        | Option.none => s
      match pattern with
      | Option.none =>
        .error { typeName := "TypeError"
                 message := "first argument must be string or compiled pattern" }
      | some p =>
        (patScan reMatch pattern stripChars allowEmpty rest).map
          (fun l => if !reMatch p valStr then idx :: l else l)

/-- `ConstraintsCheck._validate_pattern` (constraints.py lines 208-237).
When any invalid index was collected, the severity is resolved by
`Severity[constraint.severity]` WITHOUT a membership guard, so an
unrecognised severity string raises `KeyError` here. -/
def validatePattern (reMatch : String → String → Bool) (df : DataFrame)
    (colName : String) (constraint : ConstraintConfig) :
    Except PyExc (List ValidationError) :=
  match patScan reMatch constraint.pattern constraint.strip_chars
      constraint.allow_empty (df.colItems colName) with
  | .error e => .error e
  | .ok invalid =>
    if invalid.isEmpty then .ok []
    else
      match Severity.ofName? constraint.severity with
      | some severity =>
        .ok [{ severity := severity
               category := "constraints"
               message := "\x27" ++ colName ++ "\x27 com formato inválido ("
                 ++ toString invalid.length ++ " registros)"
               column := some colName
               row_indices := some (invalid.take 50)
               details := some [("pattern",
                 .str (constraint.pattern.getD ""))] }]
      | Option.none =>
        .error { typeName := "KeyError", message := constraint.severity }

/-- Truthiness of `constraint.pattern` (guard at constraints.py line 51). -/
def patternTruthy (c : ConstraintConfig) : Bool :=
  match c.pattern with
  | some p => !(p == "")
  | Option.none => false

/-- The severity routing of the generic-constraint loop (constraints.py
lines 53-61): BLOCKER and MAJOR findings go to `errors`, MINOR to
`warnings`, anything else (including unrecognised strings) to `info`. -/
def routeConstraint (severity : String) (findings : List ValidationError) :
    Buckets :=
  if severity == "BLOCKER" then { errors := findings }
  else if severity == "MAJOR" then { errors := findings }
  else if severity == "MINOR" then { warnings := findings }
  else { info := findings }

/-- The generic-constraint loop of `ConstraintsCheck.run` (constraints.py
lines 46-61), over `config.constraints.items()` in insertion order,
skipping `CNES`/`Telefone` and the columns without a truthy pattern or not
present in the dataset. -/
def patternLoop (reMatch : String → String → Bool) (df : DataFrame) :
    List (String × ConstraintConfig) → Except PyExc Buckets
  | [] => .ok {}
  | (colName, c) :: rest =>
    if colName == "CNES" || colName == "Telefone" then
      patternLoop reMatch df rest
    else if df.columns.contains colName && patternTruthy c then
      match validatePattern reMatch df colName c with
      | .error e => .error e
      | .ok findings =>
        match patternLoop reMatch df rest with
        | .error e => .error e
        | .ok restBuckets =>
          .ok (appendBuckets (routeConstraint c.severity findings) restBuckets)
    else patternLoop reMatch df rest

/-- `ConstraintsCheck._check_missingness` (constraints.py lines 239-278):
for each dataset column, compare its null rate against the configured
threshold (default `1.0`); on violation resolve the severity string with
fallback `Severity.INFO` and route the finding by the severity STRING
(BLOCKER/MAJOR to errors, MINOR to warnings, else info). -/
def checkMissingness (fmtPct : Rat → String) (df : DataFrame)
    (config : ManifestConfig) : Buckets :=
  df.columns.foldl
    (fun acc col =>
      let nullCount :=
        (df.rows.filter (fun row => rowGet row col == Cell.na)).length
      -- float division `null_count / len(df)` modelled as the exact rational
      let nullRate : Rat :=
        if df.rows.length > 0 then mkRat nullCount df.rows.length else 0
      let spec := lookupMiss config.missingness col
      let maxRate := spec.max_null_rate.getD 1
      let sevStr := spec.severity.getD "INFO"
      if nullRate > maxRate then
        let sevEnum := (Severity.ofName? sevStr).getD Severity.INFO
        let e : ValidationError :=
          { severity := sevEnum
            category := "constraints"
            message := "\x27" ++ col ++ "\x27 tem " ++ fmtPct nullRate
              ++ " nulos (máximo: " ++ fmtPct maxRate ++ ")"
            column := some col
            details := some
              [("null_count", .nat nullCount), ("null_rate", .rat nullRate),
               ("max_rate", .rat maxRate)] }
        if sevStr == "BLOCKER" then appendBuckets acc { errors := [e] }
        else if sevStr == "MAJOR" then appendBuckets acc { errors := [e] }
        else if sevStr == "MINOR" then appendBuckets acc { warnings := [e] }
        else appendBuckets acc { info := [e] }
      else acc)
    {}

/-- `ConstraintsCheck.run` (constraints.py lines 25-78): CNES validation
(when the column exists), Telefone validation (when the column exists),
the generic-pattern loop, missingness; buckets are extended in exactly that
order and the result is built by the common `passed = len(errors) == 0`
tail. -/
def ConstraintsCheck.run (reMatch : String → String → Bool)
    (fmtPct : Rat → String) (df : DataFrame) (config : ManifestConfig) :
    Except PyExc ValidationResult :=
  let cnesB :=
    if df.columns.contains "CNES" then validateCnes reMatch df config else {}
  match (if df.columns.contains "Telefone" then
           validateTelefone reMatch df config
         else .ok {}) with
  | .error e => .error e
  | .ok telB =>
    match patternLoop reMatch df config.constraints with
    | .error e => .error e
    | .ok patB =>
      let missB := checkMissingness fmtPct df config
      let errors := cnesB.errors ++ patB.errors ++ missB.errors
      let warnings := cnesB.warnings ++ telB.warnings ++ patB.warnings
        ++ missB.warnings
      let infos := cnesB.info ++ telB.info ++ patB.info ++ missB.info
      .ok (mkCheckResult "constraints" (errors.map Finding.err)
        (warnings.map Finding.err) (infos.map Finding.err))

/-! ## Base check helper (`checks/base.py`) -/

/-- The row positions failing `condition_func` in
`BaseCheck.validate_rows`: `invalid_mask = ~df.apply(condition_func,
axis=1); invalid_indices = df[invalid_mask].index.tolist()`. -/
def invalidIndices (df : DataFrame)
    (conditionFunc : List (String × Cell) → Bool) : List Nat :=
  (df.rows.enum.filter (fun p => !conditionFunc p.2)).map (fun p => p.1)

/-- `BaseCheck.validate_rows` (base.py lines 56-78): one finding when any
row fails the condition, its message carrying the total count and its
`row_indices` truncated to the first 100 positions; `details` is not
passed, so it keeps its `None` default. -/
def validateRows (checkName : String) (df : DataFrame)
    (conditionFunc : List (String × Cell) → Bool) (errorMessage : String)
    (severity : Severity) (column : Option String) : List ValidationError :=
  let invalid := invalidIndices df conditionFunc
  if invalid.isEmpty then []
  else
    [{ severity := severity
       category := checkName
       message := errorMessage ++ " (" ++ toString invalid.length ++ " linhas)"
       row_indices := some (invalid.take 100)
       column := column }]

/-! ## Sorting findings by severity (for the ordering property) -/

/-- The non-strict order induced by `Severity.__lt__` on findings, the
comparison a severity sort performs: `a` may precede `b` iff
`not (b.severity < a.severity)`. -/
def sevLe (a b : ValidationError) : Prop :=
  Severity.pylt b.severity a.severity = false

instance : DecidableRel sevLe := fun a b =>
  inferInstanceAs (Decidable (Severity.pylt b.severity a.severity = false))

/-- Sorting a list of findings by severity under `Severity.__lt__`. -/
def sortFindingsBySeverity (l : List ValidationError) : List ValidationError :=
  List.insertionSort sevLe l

/-! ## Engine lemmas -/

theorem runChecks_length (cfg : ManifestConfig) (skip : List String) :
    ∀ (l : List Check) (df : DataFrame),
      (runChecks cfg skip l df).1.length =
        (l.filter (fun c => !skip.contains c.name)).length := by
  intro l
  induction l with
  | nil => intro df; rfl
  | cons c rest ih =>
    intro df
    cases h : skip.contains c.name with
    | true =>
      have h' : c.name ∈ skip := by simpa using h
      simp [runChecks, h', ih]
    | false =>
      have h' : ¬ c.name ∈ skip := by simpa using h
      cases hrun : c.timedRun df cfg with
      | mk out dfN => cases out <;> simp [runChecks, h', hrun, ih]

theorem runChecks_append (cfg : ManifestConfig) (skip : List String) :
    ∀ (l₁ l₂ : List Check) (df : DataFrame),
      runChecks cfg skip (l₁ ++ l₂) df =
        ((runChecks cfg skip l₁ df).1
            ++ (runChecks cfg skip l₂ (runChecks cfg skip l₁ df).2).1,
          (runChecks cfg skip l₂ (runChecks cfg skip l₁ df).2).2) := by
  intro l₁
  induction l₁ with
  | nil => intro l₂ df; rfl
  | cons c rest ih =>
    intro l₂ df
    cases h : skip.contains c.name with
    | true =>
      have h' : c.name ∈ skip := by simpa using h
      simp [runChecks, h', ih]
    | false =>
      have h' : ¬ c.name ∈ skip := by simpa using h
      cases hrun : c.timedRun df cfg with
      | mk out dfN => cases out <;> simp [runChecks, h', hrun, ih]

theorem runChecks_skip_filter (cfg : ManifestConfig) (skip : List String) :
    ∀ (l : List Check) (df : DataFrame),
      runChecks cfg skip l df =
        runChecks cfg [] (l.filter (fun c => !skip.contains c.name)) df := by
  intro l
  induction l with
  | nil => intro df; rfl
  | cons c rest ih =>
    intro df
    cases h : skip.contains c.name with
    | true =>
      have h' : c.name ∈ skip := by simpa using h
      simp [runChecks, h', ih]
    | false =>
      have h' : ¬ c.name ∈ skip := by simpa using h
      cases hrun : c.timedRun df cfg with
      | mk out dfN =>
        cases out <;> simp [runChecks, h', hrun, ih]

theorem runChecks_preserve (cfg : ManifestConfig) (skip : List String) :
    ∀ (l : List Check) (df : DataFrame),
      (∀ c ∈ l, ∀ d, (c.timedRun d cfg).2 = d) →
      (runChecks cfg skip l df).2 = df := by
  intro l
  induction l with
  | nil => intro df _; rfl
  | cons c rest ih =>
    intro df hmem
    have hc : (c.timedRun df cfg).2 = df := hmem c (by simp) df
    have hrest : ∀ c0 ∈ rest, ∀ d, (c0.timedRun d cfg).2 = d :=
      fun c0 hc0 d => hmem c0 (by simp [hc0]) d
    cases h : skip.contains c.name with
    | true =>
      have h' : c.name ∈ skip := by simpa using h
      simp [runChecks, h', ih df hrest]
    | false =>
      have h' : ¬ c.name ∈ skip := by simpa using h
      cases hrun : c.timedRun df cfg with
      | mk out dfN =>
        have hdf : dfN = df := by
          have hx := hc
          rw [hrun] at hx
          exact hx
        subst hdf
        cases out <;> simp [runChecks, h', hrun, ih dfN hrest]

theorem lookupD_dictSet (v : Nat) :
    ∀ (d : List (String × Nat)) (k0 k : String) (dflt : Nat),
      lookupD (dictSet d k0 v) k dflt =
        if k0 == k then v else lookupD d k dflt := by
  intro d
  induction d with
  | nil =>
    intro k0 k dflt
    by_cases h : k0 = k <;> simp [dictSet, lookupD, h]
  | cons p rest ih =>
    intro k0 k dflt
    obtain ⟨k1, v1⟩ := p
    by_cases h1 : k1 = k0
    · subst h1
      by_cases h2 : k1 = k <;> simp [dictSet, lookupD, h2]
    · by_cases h2 : k1 = k
      · subst h2
        have h3 : ¬ k0 = k1 := fun hx => h1 hx.symm
        simp [dictSet, lookupD, h1, h3]
      · simp [dictSet, lookupD, h1, h2, ih]

theorem lookupD_bumpFinding (counts : List (String × Nat)) (f : Finding)
    (k : String) :
    lookupD (bumpFinding counts f) k 0 =
      lookupD counts k 0 + (if resolveSevKey f == k then 1 else 0) := by
  unfold bumpFinding
  rw [lookupD_dictSet]
  by_cases h : resolveSevKey f = k
  · simp [h]
  · simp [h]

theorem lookupD_foldl_bump (k : String) :
    ∀ (fs : List Finding) (counts : List (String × Nat)),
      lookupD (fs.foldl bumpFinding counts) k 0 =
        lookupD counts k 0 + fs.countP (fun f => resolveSevKey f == k) := by
  intro fs
  induction fs with
  | nil => intro counts; simp
  | cons f rest ih =>
    intro counts
    simp only [List.foldl_cons, List.countP_cons, ih, lookupD_bumpFinding]
    omega

/-- Number of findings of one result that `count_by_severity` files under
the key `k`. -/
def resultContrib (r : ValidationResult) (k : String) : Nat :=
  (r.errors ++ r.warnings ++ r.info).countP (fun f => resolveSevKey f == k)

theorem lookupD_countResult (counts : List (String × Nat))
    (r : ValidationResult) (k : String) :
    lookupD (countResult counts r) k 0 =
      lookupD counts k 0 + resultContrib r k := by
  unfold countResult resultContrib
  rw [lookupD_foldl_bump, lookupD_foldl_bump, lookupD_foldl_bump,
    List.countP_append, List.countP_append]
  omega

theorem lookupD_countFold_ge (k : String) :
    ∀ (rs : List ValidationResult) (counts : List (String × Nat)),
      lookupD counts k 0 ≤ lookupD (rs.foldl countResult counts) k 0 := by
  intro rs
  induction rs with
  | nil => intro counts; simp
  | cons r rest ih =>
    intro counts
    calc lookupD counts k 0
        ≤ lookupD (countResult counts r) k 0 := by
          rw [lookupD_countResult]; omega
      _ ≤ lookupD (rest.foldl countResult (countResult counts r)) k 0 := ih _
      _ = lookupD ((r :: rest).foldl countResult counts) k 0 := by
          simp [List.foldl_cons]

theorem faultResult_contrib_blocker (checkName : String) (e : PyExc) :
    resultContrib (faultResult checkName e) "BLOCKER" = 1 := by
  simp [resultContrib, faultResult, resolveSevKey, pyDictGet, pyStr,
    Severity.value, List.countP_cons]

theorem pylt_irrefl : ∀ s : Severity, Severity.pylt s s = false := by decide

theorem pylt_asymm_total :
    ∀ s t : Severity, Severity.pylt t s = false ∨ Severity.pylt s t = false := by
  decide

theorem pylt_trans_neg :
    ∀ s t u : Severity, Severity.pylt t s = false → Severity.pylt u t = false →
      Severity.pylt u s = false := by
  decide

instance : IsTotal ValidationError sevLe := by
  constructor
  intro a b
  unfold sevLe
  exact pylt_asymm_total a.severity b.severity

instance : IsTrans ValidationError sevLe := by
  constructor
  intro a b c hab hbc
  unfold sevLe at hab hbc ⊢
  exact pylt_trans_neg a.severity b.severity c.severity hab hbc

/-- Results of a run whose check list splits as `pre ++ c :: post` with the
non-skipped `c` raising `e` at the dataset state it receives: the report
lists `pre`'s results, then the synthetic fault result, then `post`'s. -/
theorem run_results_fault_decomp (cfg : ManifestConfig) (skip : List String)
    (pre post : List Check) (c : Check) (df dfMid : DataFrame) (e : PyExc)
    (hskip : skip.contains c.name = false)
    (hraise : c.timedRun (runChecks cfg skip pre df).2 cfg
        = (ExecOutcome.exn e, dfMid)) :
    ((ValidationRunner.mk cfg (pre ++ c :: post) skip).run df).results
      = (runChecks cfg skip pre df).1
          ++ faultResult c.name e :: (runChecks cfg skip post dfMid).1 := by
  show (runChecks cfg skip (pre ++ c :: post) df).1 = _
  rw [runChecks_append]
  have h' : ¬ c.name ∈ skip := by simpa using hskip
  simp [runChecks, h', hraise]

/-! ## Concrete fixtures for witnesses and counterexamples -/

/-- An always-failing external regex matcher instantiation. -/
def reMatchAllF : String → String → Bool := fun _ _ => false

/-- An always-succeeding external regex matcher instantiation. -/
def reMatchAllT : String → String → Bool := fun _ _ => true

/-- A trivial percent formatter instantiation. -/
def fmtPct0 : Rat → String := fun _ => ""

def cfgW : ManifestConfig := { input_file := "data.xlsx" }

def dfW : DataFrame :=
  { columns := ["CNES", "Region"]
    rows := [[("CNES", Cell.val "1234567"), ("Region", Cell.val "North")],
             [("CNES", Cell.val "7654321"), ("Region", Cell.val "South")],
             [("CNES", Cell.na), ("Region", Cell.val "South")]] }

def okResult1 : ValidationResult := { category := "schema", passed := true }

def okResult3 : ValidationResult := { category := "vocab", passed := true }

def failResultW : ValidationResult :=
  { category := "uniqueness"
    passed := false
    errors := [Finding.err
      { severity := .MAJOR, category := "uniqueness", message := "duplicado" }] }

def excW : PyExc :=
  { typeName := "ValueError", message := "boom", traceback := "Traceback" }

def checkOk1 : Check :=
  { name := "schema", timedRun := fun df _ => (.ok okResult1, df) }

def checkRaise : Check :=
  { name := "parsing", timedRun := fun df _ => (.exn excW, df) }

def checkOk3 : Check :=
  { name := "vocab", timedRun := fun df _ => (.ok okResult3, df) }

def checkFail : Check :=
  { name := "uniqueness", timedRun := fun df _ => (.ok failResultW, df) }

def df3 : DataFrame :=
  { columns := ["A"]
    rows := [[("A", Cell.val "1")], [("A", Cell.val "2")], [("A", Cell.val "3")]] }

def df5 : DataFrame :=
  { columns := ["A"]
    rows := [[("A", Cell.val "1")], [("A", Cell.val "2")], [("A", Cell.val "3")],
             [("A", Cell.val "4")], [("A", Cell.val "5")]] }

/-- A check that mutates the shared dataset object (replaces its contents
with `df5`). -/
def checkMut : Check :=
  { name := "mutating", timedRun := fun _ _ => (.ok okResult1, df5) }

def fB : ValidationError :=
  { severity := .BLOCKER, category := "x", message := "b" }

def fI : ValidationError :=
  { severity := .INFO, category := "x", message := "i" }

def cfgBadSeverity : ManifestConfig :=
  { input_file := "data.xlsx"
    constraints := [("Obs", { pattern := some "^a$", severity := "CRITICAL" })] }

def dfObs : DataFrame :=
  { columns := ["Obs"], rows := [[("Obs", Cell.val "b")]] }

def cfgBadCnesSeverity : ManifestConfig :=
  { input_file := "data.xlsx"
    constraints := [("CNES", { severity := "CRITICAL" })] }

def dfBadCnes : DataFrame :=
  { columns := ["CNES"], rows := [[("CNES", Cell.val "abc")]] }

def cfgBadMissSeverity : ManifestConfig :=
  { input_file := "data.xlsx"
    missingness := [("Obs", { max_null_rate := some 0, severity := some "CRITICAL" })] }

def dfObsNa : DataFrame :=
  { columns := ["Obs"], rows := [[("Obs", Cell.na)]] }

def eW : ValidationError :=
  { severity := .MAJOR
    category := "vocab"
    message := "Valores inválidos (3 linhas)"
    row_indices := some [0, 1, 2] }

/-! ## Claim theorems -/

/-- C1 (fault isolation): for every registered check list, when a
non-skipped check raises during `ValidationRunner.run`, the runner appends
for that check a `ValidationResult` with `passed = false` whose errors
bucket is exactly one BLOCKER-severity finding carrying the exception type
name and traceback in its details payload and whose warnings/info buckets
are empty, still executes every remaining registered check, and a run of n
non-skipped checks yields exactly n results in registration order. -/
theorem c1_fault_isolation (cfg : ManifestConfig) (skip : List String)
    (pre post : List Check) (c : Check) (df dfMid : DataFrame) (e : PyExc)
    (hskip : skip.contains c.name = false)
    (hraise : c.timedRun (runChecks cfg skip pre df).2 cfg
        = (ExecOutcome.exn e, dfMid)) :
    ((ValidationRunner.mk cfg (pre ++ c :: post) skip).run df).results
        = (runChecks cfg skip pre df).1
            ++ faultResult c.name e :: (runChecks cfg skip post dfMid).1
    ∧ (faultResult c.name e).passed = false
    ∧ (faultResult c.name e).errors
        = [Finding.dict
            [("severity", PyVal.str Severity.BLOCKER.value),
             ("message", PyVal.str ("Erro na execução do check: " ++ e.message)),
             ("details", PyVal.dict
               [("exception", PyVal.str e.typeName),
                ("traceback", PyVal.str e.traceback)])]]
    ∧ (faultResult c.name e).warnings = []
    ∧ (faultResult c.name e).info = []
    ∧ ((ValidationRunner.mk cfg (pre ++ c :: post) skip).run df).results.length
        = ((pre ++ c :: post).filter (fun ch => !skip.contains ch.name)).length := by
  refine ⟨run_results_fault_decomp cfg skip pre post c df dfMid e hskip hraise,
    rfl, rfl, rfl, rfl, ?_⟩
  show (runChecks cfg skip (pre ++ c :: post) df).1.length = _
  rw [runChecks_length]

theorem c1_fault_isolation_witness :
    ((ValidationRunner.mk cfgW [checkOk1, checkRaise, checkOk3] []).run dfW).results
        = [okResult1, faultResult "parsing" excW, okResult3]
    ∧ ((ValidationRunner.mk cfgW [checkOk1, checkRaise, checkOk3] []).run
        dfW).results.length = 3 := by
  have h := c1_fault_isolation cfgW [] [checkOk1] [checkOk3] checkRaise dfW dfW
    excW rfl rfl
  exact ⟨h.1.trans rfl, h.2.2.2.2.2.trans rfl⟩

/-- C2: a `ValidationReport`'s overall `passed` flag is the logical AND of
its results' `passed` flags — it is true iff every contained result passed,
an empty results sequence yields `passed = true`, and any failing result in
a runner-produced report forces the report's `passed` to false. -/
theorem c2_report_passed_conjunction :
    (∀ rep : ValidationReport,
      (rep.passed = true ↔ ∀ r ∈ rep.results, r.passed = true))
    ∧ (∀ rep : ValidationReport, rep.results = [] → rep.passed = true)
    ∧ (∀ (runner : ValidationRunner) (df : DataFrame) (r : ValidationResult),
        r ∈ (runner.run df).results → r.passed = false →
        (runner.run df).passed = false) := by
  refine ⟨?_, ?_, ?_⟩
  · intro rep
    simp [ValidationReport.passed, List.all_eq_true]
  · intro rep h
    simp [ValidationReport.passed, h]
  · intro runner df r hmem hfail
    cases hall : (runner.run df).passed with
    | false => rfl
    | true =>
      exfalso
      have hr : r.passed = true := by
        have := (List.all_eq_true.mp hall) r hmem
        simpa using this
      rw [hr] at hfail
      cases hfail

theorem c2_report_passed_conjunction_witness :
    ((ValidationRunner.mk cfgW [checkOk1, checkFail] []).run dfW).passed = false
    ∧ ValidationReport.passed {} = true := by
  constructor
  · refine c2_report_passed_conjunction.2.2
      (ValidationRunner.mk cfgW [checkOk1, checkFail] []) dfW failResultW ?_ rfl
    show failResultW ∈ [okResult1, failResultW]
    exact List.mem_cons_of_mem _ (List.mem_cons_self _ _)
  · exact c2_report_passed_conjunction.2.1 {} rfl

/-- C3: for results constructed by the checks' common
`passed = len(errors) == 0` tail (all nine `run` methods), for the fully
embedded `SchemaCheck.run` and `ConstraintsCheck.run`, for the geospatial
early return, and for the runner's synthesized fault results, the `passed`
flag is true iff the errors bucket is empty. -/
theorem c3_passed_iff_errors_empty :
    (∀ (category : String) (errors warnings info : List Finding),
      ((mkCheckResult category errors warnings info).passed = true
        ↔ (mkCheckResult category errors warnings info).errors = []))
    ∧ (∀ (df : DataFrame) (config : ManifestConfig),
        ((SchemaCheck.run df config).passed = true
          ↔ (SchemaCheck.run df config).errors = []))
    ∧ (∀ (reMatch : String → String → Bool) (fmtPct : Rat → String)
        (df : DataFrame) (config : ManifestConfig) (r : ValidationResult),
        ConstraintsCheck.run reMatch fmtPct df config = Except.ok r →
        (r.passed = true ↔ r.errors = []))
    ∧ (∀ (checkName : String) (e : PyExc),
        (faultResult checkName e).passed = false
          ∧ (faultResult checkName e).errors ≠ [])
    ∧ geospatialNoCoordsResult.passed = true
    ∧ geospatialNoCoordsResult.errors = [] := by
  have hmk : ∀ (category : String) (errors warnings info : List Finding),
      ((mkCheckResult category errors warnings info).passed = true
        ↔ (mkCheckResult category errors warnings info).errors = []) := by
    intro category errors warnings info
    simp [mkCheckResult, List.length_eq_zero]
  refine ⟨hmk, ?_, ?_, ?_, rfl, rfl⟩
  · intro df config
    exact hmk _ _ _ _
  · intro reMatch fmtPct df config r h
    unfold ConstraintsCheck.run at h
    cases h1 : (if df.columns.contains "Telefone" then
        validateTelefone reMatch df config else .ok {}) with
    | error e => rw [h1] at h; cases h
    | ok telB =>
      rw [h1] at h
      cases h2 : patternLoop reMatch df config.constraints with
      | error e => rw [h2] at h; cases h
      | ok patB =>
        rw [h2] at h
        simp only [Except.ok.injEq] at h
        rw [← h]
        exact hmk _ _ _ _
  · intro checkName e
    exact ⟨rfl, by simp [faultResult]⟩

theorem c3_passed_iff_errors_empty_witness :
    ConstraintsCheck.run reMatchAllT fmtPct0 dfW cfgW
        = Except.ok (mkCheckResult "constraints" [] [] [])
    ∧ ((mkCheckResult "constraints" [] [] []).passed = true
        ↔ (mkCheckResult "constraints" [] [] []).errors = []) := by
  refine ⟨rfl, ?_⟩
  exact c3_passed_iff_errors_empty.2.2.1 reMatchAllT fmtPct0 dfW cfgW _ rfl

/-- C4 (skip semantics): a registered check whose name is in the skip set
contributes nothing to the report — the run behaves exactly as if only the
non-skipped checks were registered — and the results sequence length equals
the number of registered checks minus the number of registered checks whose
names are in the skip set. -/
theorem c4_skip_semantics (cfg : ManifestConfig) (skip : List String)
    (checks : List Check) (df : DataFrame) :
    ((ValidationRunner.mk cfg checks skip).run df).results
        = (runChecks cfg [] (checks.filter (fun c => !skip.contains c.name)) df).1
    ∧ ((ValidationRunner.mk cfg checks skip).run df).results.length
        = checks.length - (checks.filter (fun c => skip.contains c.name)).length := by
  constructor
  · show (runChecks cfg skip checks df).1 = _
    rw [runChecks_skip_filter]
  · show (runChecks cfg skip checks df).1.length = _
    rw [runChecks_length]
    have h := List.length_eq_length_filter_add
      (l := checks) (fun c => skip.contains c.name)
    omega

/-- C5 (severity order): `Severity.__lt__` is a strict total order with
INFO < MINOR < MAJOR < BLOCKER — irreflexive, with exactly one direction
holding for distinct severities — and sorting any list of findings by
severity places every finding of strictly lower severity before every
finding of strictly higher severity. -/
theorem c5_severity_strict_total_order :
    (∀ s : Severity, Severity.pylt s s = false)
    ∧ (∀ s t : Severity, s ≠ t →
        (Severity.pylt s t = true ↔ Severity.pylt t s = false))
    ∧ Severity.pylt .INFO .MINOR = true
    ∧ Severity.pylt .MINOR .MAJOR = true
    ∧ Severity.pylt .MAJOR .BLOCKER = true
    ∧ (∀ l : List ValidationError,
        (sortFindingsBySeverity l).Perm l
        ∧ ∀ (i j : Nat) (hi : i < (sortFindingsBySeverity l).length)
            (hj : j < (sortFindingsBySeverity l).length),
            Severity.pylt ((sortFindingsBySeverity l).get ⟨i, hi⟩).severity
                ((sortFindingsBySeverity l).get ⟨j, hj⟩).severity = true →
            i < j) := by
  refine ⟨by decide, by decide, by decide, by decide, by decide, ?_⟩
  intro l
  refine ⟨List.perm_insertionSort sevLe l, ?_⟩
  intro i j hi hj hlt
  by_contra hij
  push_neg at hij
  rcases Nat.eq_or_lt_of_le hij with heq | hgt
  · have hfin : (⟨i, hi⟩ : Fin (sortFindingsBySeverity l).length) = ⟨j, hj⟩ := by
      simp [heq]
    rw [hfin, pylt_irrefl] at hlt
    cases hlt
  · have hsorted : List.Sorted sevLe (sortFindingsBySeverity l) :=
      List.sorted_insertionSort sevLe l
    have hrel : sevLe ((sortFindingsBySeverity l).get ⟨j, hj⟩)
        ((sortFindingsBySeverity l).get ⟨i, hi⟩) :=
      hsorted.rel_get_of_lt hgt
    unfold sevLe at hrel
    rw [hrel] at hlt
    cases hlt

theorem c5_severity_strict_total_order_witness :
    sortFindingsBySeverity [fB, fI] = [fI, fB] ∧ (0 : Nat) < 1 := by
  refine ⟨rfl, ?_⟩
  exact (c5_severity_strict_total_order.2.2.2.2.2 [fB, fI]).2 0 1
    (by decide) (by decide) (by decide)

/-- C6 (severity fallback, divergence): `_validate_cnes` and
`_check_missingness` do fall back deterministically (MAJOR resp. INFO) on
an unrecognised severity string, but `_validate_pattern` resolves
`Severity[constraint.severity]` with no guard, so a generic manifest
constraint with an unrecognised severity and at least one non-matching row
makes `ConstraintsCheck.run` raise `KeyError` instead of falling back —
contradicting the claim that resolution never raises. -/
theorem c6_severity_fallback_divergence :
    ConstraintsCheck.run reMatchAllF fmtPct0 dfObs cfgBadSeverity
        = Except.error { typeName := "KeyError", message := "CRITICAL" }
    ∧ (validateCnes reMatchAllF dfBadCnes cfgBadCnesSeverity).errors.map
        (fun e => e.severity) = [Severity.MAJOR]
    ∧ (checkMissingness fmtPct0 dfObsNa cfgBadMissSeverity).info.map
        (fun e => e.severity) = [Severity.INFO]
    ∧ (validatePattern reMatchAllF dfObs "Obs"
          { pattern := some "^a$", severity := "CRITICAL" })
        = Except.error { typeName := "KeyError", message := "CRITICAL" } := by
  exact ⟨rfl, rfl, rfl, rfl⟩

/-- C7 (no manifest, divergence): `ManifestConfig` declares `input_file:
str` without a dataclass default, so the `ManifestConfig()` call performed
by `ValidationRunner.__init__` when `config=None` raises `TypeError`
instead of producing a built-in-defaults configuration — the runner cannot
be constructed without a manifest. -/
theorem c7_no_manifest_raises_typeerror :
    ∀ (checks : List Check) (skip : List String),
      runnerInitNoConfig checks skip
        = Except.error
            { typeName := "TypeError"
              message := "ManifestConfig.__init__() missing 1 required positional argument: \x27input_file\x27" }
      ∧ dataclassMissing manifestConfigFields [] = ["input_file"] := by
  intro checks skip
  exact ⟨rfl, rfl⟩

/-- C8 counterexample: the runner measures `len(df)` when the report is
assembled, after the checks ran, so a check that mutates the shared
dataset object (3 rows replaced by 5) makes the report's `row_count` differ
from the snapshot's row count at the moment validation began. -/
theorem c8_counts_counterexample :
    ((ValidationRunner.mk cfgW [checkMut] []).run df3).row_count = 5
    ∧ df3.rows.length = 3
    ∧ ((ValidationRunner.mk cfgW [checkMut] []).run df3).row_count
        ≠ df3.rows.length := by
  exact ⟨rfl, rfl, by decide⟩

/-- C8 amended: `row_count`/`column_count` are measured from the dataset
object after all checks ran; whenever no check mutates the dataset
snapshot, they equal the snapshot's row and column counts at the moment
validation began. -/
theorem c8_counts_when_checks_read_only (runner : ValidationRunner)
    (df : DataFrame)
    (h : ∀ c ∈ runner.checks, ∀ d, (c.timedRun d runner.config).2 = d) :
    (runner.run df).row_count = df.rows.length
    ∧ (runner.run df).column_count = df.columns.length := by
  have hp := runChecks_preserve runner.config runner.skip_checks
    runner.checks df h
  constructor
  · show (runChecks runner.config runner.skip_checks runner.checks
        df).2.rows.length = df.rows.length
    rw [hp]
  · show (runChecks runner.config runner.skip_checks runner.checks
        df).2.columns.length = df.columns.length
    rw [hp]

theorem c8_counts_when_checks_read_only_witness :
    ((ValidationRunner.mk cfgW [checkOk1, checkOk3] []).run df3).row_count
        = df3.rows.length
    ∧ ((ValidationRunner.mk cfgW [checkOk1, checkOk3] []).run df3).column_count
        = df3.columns.length := by
  refine c8_counts_when_checks_read_only _ df3 ?_
  intro c hc d
  rcases List.mem_cons.mp hc with rfl | hc2
  · rfl
  · rcases List.mem_cons.mp hc2 with rfl | hc3
    · rfl
    · simp at hc3

/-- C9 counterexample: a finding produced by `BaseCheck.validate_rows`
carries affected row positions and states the total count only in its
message — its `details` payload is `None`, so the total count is NOT
preserved in the details payload as claimed. -/
theorem c9_details_counterexample :
    (validateRows "vocab" df3 (fun _ => false) "Valores inválidos"
        Severity.MAJOR Option.none).map (fun e => e.details) = [Option.none]
    ∧ (validateRows "vocab" df3 (fun _ => false) "Valores inválidos"
        Severity.MAJOR Option.none).map (fun e => e.row_indices)
        = [some [0, 1, 2]]
    ∧ (validateRows "vocab" df3 (fun _ => false) "Valores inválidos"
        Severity.MAJOR Option.none).map (fun e => e.message)
        = ["Valores inválidos (3 linhas)"] :=
  ⟨rfl, rfl, rfl⟩

/-- C9 amended: findings carrying affected row positions are bounded
samples — `validate_rows` truncates to the first 100 positions and
`_validate_cnes` to the first 50 — and the total count of affected rows is
preserved in the finding's MESSAGE text (not in the details payload, which
`validate_rows` leaves as `None`). -/
theorem c9_truncation_and_counts :
    (∀ (checkName msg : String) (df : DataFrame)
        (cond : List (String × Cell) → Bool) (severity : Severity)
        (column : Option String) (e : ValidationError),
        e ∈ validateRows checkName df cond msg severity column →
        e.row_indices = some ((invalidIndices df cond).take 100)
        ∧ ((invalidIndices df cond).take 100).length ≤ 100
        ∧ e.message = msg ++ " (" ++ toString (invalidIndices df cond).length
            ++ " linhas)"
        ∧ e.details = Option.none)
    ∧ (∀ (reMatch : String → String → Bool) (df : DataFrame)
        (config : ManifestConfig) (err : ValidationError),
        err ∈ (validateCnes reMatch df config).errors
            ++ (validateCnes reMatch df config).warnings →
        err.row_indices = some ((cnesInvalid reMatch df config).take 50)
        ∧ ((cnesInvalid reMatch df config).take 50).length ≤ 50
        ∧ err.message = "CNES com formato inválido ("
            ++ toString (cnesInvalid reMatch df config).length
            ++ " registros)") := by
  constructor
  · intro checkName msg df cond severity column e he
    simp only [validateRows] at he
    split at he
    · simp at he
    · rw [List.mem_singleton] at he
      subst he
      exact ⟨rfl, List.length_take_le _ _, rfl, rfl⟩
  · intro reMatch df config err herr
    unfold validateCnes at herr
    simp only [appendBuckets] at herr
    by_cases hinv : (cnesInvalid reMatch df config).isEmpty
    · rw [if_pos hinv] at herr
      by_cases hsp : (cnesSpecial reMatch df config).isEmpty
      · rw [if_pos hsp] at herr
        simp at herr
      · rw [if_neg hsp] at herr
        simp at herr
    · rw [if_neg hinv] at herr
      by_cases hsp : (cnesSpecial reMatch df config).isEmpty
      · rw [if_pos hsp] at herr
        split at herr <;>
        · simp at herr
          subst herr
          exact ⟨rfl, List.length_take_le _ _, rfl⟩
      · rw [if_neg hsp] at herr
        split at herr <;>
        · simp at herr
          subst herr
          exact ⟨rfl, List.length_take_le _ _, rfl⟩

theorem c9_truncation_and_counts_witness :
    eW ∈ validateRows "vocab" df3 (fun _ => false) "Valores inválidos"
        Severity.MAJOR Option.none
    ∧ eW.row_indices = some ((invalidIndices df3 (fun _ => false)).take 100)
    ∧ eW.message = "Valores inválidos" ++ " ("
        ++ toString (invalidIndices df3 (fun _ => false)).length ++ " linhas)"
    ∧ eW.details = Option.none := by
  have hmem : eW ∈ validateRows "vocab" df3 (fun _ => false)
      "Valores inválidos" Severity.MAJOR Option.none := by
    show eW ∈ [eW]
    exact List.mem_singleton_self eW
  have h := c9_truncation_and_counts.1 "vocab" "Valores inválidos" df3
    (fun _ => false) Severity.MAJOR Option.none eW hmem
  exact ⟨hmem, h.1, h.2.2.1, h.2.2.2⟩

/-- C10: when a non-skipped check raises during `ValidationRunner.run`,
the resulting report's `has_blockers` is true — `count_by_severity` files
the synthesized fault finding under the `"BLOCKER"` key even though that
finding is a plain dict with a string severity rather than a
`ValidationError` object. -/
theorem c10_fault_sets_has_blockers (cfg : ManifestConfig)
    (skip : List String) (pre post : List Check) (c : Check)
    (df dfMid : DataFrame) (e : PyExc)
    (hskip : skip.contains c.name = false)
    (hraise : c.timedRun (runChecks cfg skip pre df).2 cfg
        = (ExecOutcome.exn e, dfMid)) :
    ((ValidationRunner.mk cfg (pre ++ c :: post) skip).run df).has_blockers
        = true
    ∧ 1 ≤ lookupD (((ValidationRunner.mk cfg (pre ++ c :: post) skip).run
        df).count_by_severity) "BLOCKER" 0
    ∧ resolveSevKey
        (Finding.dict
          [("severity", PyVal.str Severity.BLOCKER.value),
           ("message", PyVal.str ("Erro na execução do check: " ++ e.message)),
           ("details", PyVal.dict
             [("exception", PyVal.str e.typeName),
              ("traceback", PyVal.str e.traceback)])]) = "BLOCKER" := by
  have hres := run_results_fault_decomp cfg skip pre post c df dfMid e
    hskip hraise
  have hkey : 1 ≤ lookupD (((ValidationRunner.mk cfg (pre ++ c :: post)
      skip).run df).count_by_severity) "BLOCKER" 0 := by
    unfold ValidationReport.count_by_severity
    rw [hres, List.foldl_append, List.foldl_cons]
    have h1 : 1 ≤ lookupD (countResult
        ((runChecks cfg skip pre df).1.foldl countResult initCounts)
        (faultResult c.name e)) "BLOCKER" 0 := by
      rw [lookupD_countResult, faultResult_contrib_blocker]
      omega
    calc (1 : Nat)
        ≤ _ := h1
      _ ≤ _ := lookupD_countFold_ge "BLOCKER" _ _
  refine ⟨?_, hkey, rfl⟩
  unfold ValidationReport.has_blockers
  rw [decide_eq_true_eq]
  omega

theorem c10_fault_sets_has_blockers_witness :
    ((ValidationRunner.mk cfgW [checkOk1, checkRaise, checkOk3] []).run
      dfW).has_blockers = true :=
  (c10_fault_sets_has_blockers cfgW [] [checkOk1] [checkOk3] checkRaise dfW
    dfW excW rfl rfl).1
